import Mathlib

/-!
Shallow embedding of the portfolio single-page app (`src/src/App.jsx`):
the theme resolver (`useTheme`), the navigation scroll state (`Nav`),
the content loaders (`Projects`, `Experience`, `Blog`) and the section
renderers (`Projects`, `Blog`, `Chips`).  JavaScript strings are `String`,
absent/`null`/`undefined` values are `Option`, and JS truthiness on the
values that actually flow through these functions is modelled explicitly.
-/

/-! ### Theme resolver (`useTheme`, App.jsx lines 10-30) -/

/-- The string the OS dark-mode media query contributes:
`prefersDark ? 'dark' : 'light'` (line 12). -/
def osStr (osDark : Bool) : String := if osDark then "dark" else "light"

/-- JS truthiness of `localStorage.getItem('theme')`: `null` (modelled
`none`) and the empty string are falsy, every other string is truthy. -/
def jsFalsyStr (s : Option String) : Bool :=
  match s with
  | none => true
  | some s => s = ""

/-- The `useState` initializer on line 12:
`localStorage.getItem('theme') || (prefersDark ? 'dark' : 'light')`. -/
def resolveInitial (stored : Option String) (osDark : Bool) : String :=
  match stored with
  | none => osStr osDark
  | some s => if s = "" then osStr osDark else s

/-- Live theme state: the React `theme` state plus the `localStorage`
key `theme` (`none` = key absent). -/
structure ThemeState where
  theme : String
  stored : Option String
deriving Repr, DecidableEq

/-- The effect on lines 13-18: sets the document class and runs
`localStorage.setItem('theme', theme)` on every theme change,
including the initial mount. -/
def applyThemeEffect (st : ThemeState) : ThemeState :=
  { st with stored := some st.theme }

/-- Mounting `useTheme`: the initializer on line 12 followed by the
first run of the effect on lines 13-18. -/
def themeMount (stored0 : Option String) (osDark : Bool) : ThemeState :=
  applyThemeEffect { theme := resolveInitial stored0 osDark, stored := stored0 }

/-- An explicit `setTheme p` call (the toggle buttons, lines 63 and 76):
the state updates and the effect on lines 13-18 re-runs. -/
def setPreference (p : String) (st : ThemeState) : ThemeState :=
  applyThemeEffect { st with theme := p }

/-- The OS change handler on lines 21-25: only when
`!localStorage.getItem('theme')` does it `setTheme(e.matches ? 'dark' : 'light')`,
after which the effect on lines 13-18 re-runs. -/
def osNotify (osDark : Bool) (st : ThemeState) : ThemeState :=
  if jsFalsyStr st.stored then applyThemeEffect { st with theme := osStr osDark }
  else st

/-- The toggle handler on lines 63 and 76:
`setTheme(theme === 'dark' ? 'light' : 'dark')`. -/
def toggleTheme (theme : String) : String :=
  if theme = "dark" then "light" else "dark"

/-! ### Navigation scroll state (`Nav`, App.jsx lines 32-54) -/

/-- The `Nav` scroll state: `scrollUp` drives visibility (line 54:
`scrollUp ? 'opacity-100' : 'opacity-0'`), `lastY` is the `lastY` ref. -/
structure NavState where
  scrollUp : Bool
  lastY : Nat
deriving Repr, DecidableEq

/-- Initial `Nav` state: `useState(true)` for `scrollUp`, `useRef(0)`
for `lastY` (lines 34-35). -/
def navInit : NavState := { scrollUp := true, lastY := 0 }

/-- The scroll handler on lines 37-41:
`setScrollUp(y < lastY.current); lastY.current = y`. -/
def onScroll (y : Nat) (st : NavState) : NavState :=
  { scrollUp := decide (y < st.lastY), lastY := y }

/-- The nav bar is shown exactly when `scrollUp` holds (line 54). -/
def navShown (st : NavState) : Bool := st.scrollUp

/-! ### Content records (spec section 3, consumed read-only) -/

/-- A project record as rendered on lines 137-147; the optional link
fields are `Option String` (`none` = field absent/`null`). -/
structure Project where
  slug : String
  title : String
  summary : String
  demo_url : Option String := none
  repo_url : Option String := none
deriving Repr, DecidableEq

/-- An experience entry as rendered on lines 204-206. -/
structure ExperienceEntry where
  id : String
  start : String
  «end» : String
  role : String
  org : String
  summary : String
deriving Repr, DecidableEq

/-- An education entry as rendered on lines 212-214. -/
structure EducationEntry where
  id : String
  start : String
  «end» : String
  degree : String
  school : String
  summary : String
deriving Repr, DecidableEq

/-- A blog post as rendered on lines 231-238; `tags` is absent when the
backend omits the field (line 236 guards with `p.tags || []`). -/
structure Post where
  id : String
  title : String
  excerpt : String
  read_time : Nat
  tags : Option (List String) := none
deriving Repr, DecidableEq

/-! ### Content loaders (App.jsx lines 121-133, 188-197, 222-227) -/

/-- The JSON value `res.json()` yields for a collection endpoint: a list
of records of type alpha, or some other JSON document (an object such as
an error payload, a string, a number). -/
inductive JsonVal (α : Type) where
  | arr (xs : List α) : JsonVal α
  | nonList : JsonVal α
deriving Repr, DecidableEq

/-- The outcome of one `fetch`: the request rejects (network error), or a
response arrives with an HTTP success flag `ok` (`res.ok`) and a body
that either parses as JSON (`some j`) or does not (`none`, making
`res.json()` reject). -/
inductive FetchResult (α : Type) where
  | networkError : FetchResult α
  | response (ok : Bool) (body : Option (JsonVal α)) : FetchResult α
deriving Repr, DecidableEq

/-- The base-URL computation shared by every loader (lines 126, 192, 225):
`import.meta.env.VITE_BACKEND_URL || ''` (unset or empty env gives `''`). -/
def baseOf (env : Option String) : String :=
  match env with
  | none => ""
  | some s => if s = "" then "" else s

/-- The single request URL a loader builds: backtick template
`${base}/api/<endpointName>` (lines 127, 194, 195, 226). -/
def requestUrl (env : Option String) (endpointName : String) : String :=
  baseOf env ++ "/api/" ++ endpointName

/-- The list of requests one loader issues for its endpoint: exactly one
`fetch`, no retry. -/
def requestsFor (env : Option String) (endpointName : String) : List String :=
  [requestUrl env endpointName]

/-- The `items` state of `Projects` after its load effect (lines 123-133):
`try { const res = await fetch(...); const data = await res.json();
setItems(data) } catch (e) {}` — on any rejection the state keeps its
initial value `[]`; on a parsed body, the body is stored whatever it is
(`res.ok` is never examined). -/
def projectsLoad (r : FetchResult Project) : JsonVal Project :=
  match r with
  | .networkError => .arr []
  | .response _ none => .arr []
  | .response _ (some j) => j

/-- The `xp` state of `Experience` after its load effect (lines 191-197):
`fetch(...).then(r=>r.json()).catch(()=>[])` — any rejection becomes `[]`,
a parsed body is stored as is (`res.ok` never examined). -/
def experienceLoad (r : FetchResult ExperienceEntry) : JsonVal ExperienceEntry :=
  match r with
  | .networkError => .arr []
  | .response _ none => .arr []
  | .response _ (some j) => j

/-- The `edu` state of `Experience` after its load effect (line 195),
identical in shape to `experienceLoad`. -/
def educationLoad (r : FetchResult EducationEntry) : JsonVal EducationEntry :=
  match r with
  | .networkError => .arr []
  | .response _ none => .arr []
  | .response _ (some j) => j

/-- The `posts` state of `Blog` after its load effect (lines 224-227):
`fetch(...).then(r=>r.json()).then(setPosts).catch(()=>{})` — on any
rejection `setPosts` is never called and the state keeps its initial
value `[]`; a parsed body is stored as is (`res.ok` never examined). -/
def postsLoad (r : FetchResult Post) : JsonVal Post :=
  match r with
  | .networkError => .arr []
  | .response _ none => .arr []
  | .response _ (some j) => j

/-! ### Section renderers (App.jsx lines 111-119, 137-147, 231-238) -/

/-- JS truthiness of an optional string field such as `p.demo_url`:
absent/`null` and `''` are falsy. -/
def truthyStr (s : Option String) : Bool :=
  match s with
  | none => false
  | some s => s ≠ ""

/-- The visual item `Projects` renders per record (lines 138-146): title,
summary, and the optional Live/Repo anchors with their `href`s. -/
structure ProjectItem where
  title : String
  summary : String
  live : Option String
  repo : Option String
deriving Repr, DecidableEq

/-- Rendering one project (lines 138-146): the Live anchor exists iff
`p.demo_url &&` is truthy (line 143), the Repo anchor iff `p.repo_url &&`
is truthy (line 144). -/
def renderProject (p : Project) : ProjectItem :=
  { title := p.title
    summary := p.summary
    live := if truthyStr p.demo_url then p.demo_url else none
    repo := if truthyStr p.repo_url then p.repo_url else none }

/-- A tag chip as rendered by `Chips` (lines 114-116): one span labelled
with the tag text. -/
structure Chip where
  label : String
deriving Repr, DecidableEq

/-- `Chips` (lines 111-119): maps each item to a chip labelled with it. -/
def renderChips (items : List String) : List Chip :=
  items.map (fun t => { label := t })

/-- `p.tags || []` (line 236): a missing `tags` field becomes the empty
list; a present array (even empty) is truthy in JS and kept as is. -/
def tagsOrEmpty (tags : Option (List String)) : List String :=
  match tags with
  | none => []
  | some l => l

/-- The visual item `Blog` renders per post (lines 232-237). -/
structure PostItem where
  title : String
  read_time : Nat
  excerpt : String
  chips : List Chip
deriving Repr, DecidableEq

/-- Rendering one post (lines 232-237): title, read time, excerpt, and
`Chips items={p.tags || []}`. -/
def renderPost (p : Post) : PostItem :=
  { title := p.title
    read_time := p.read_time
    excerpt := p.excerpt
    chips := renderChips (tagsOrEmpty p.tags) }

/-! ### Claims -/

/-- Claim C1, counterexample: a non-success HTTP response (`ok = false`)
whose body parses as a JSON list does NOT resolve to the empty sequence —
the parsed body becomes the section state, because `res.ok` is never
checked. -/
theorem C1_counterexample :
    projectsLoad (.response false
        (some (.arr [{ slug := "a", title := "T", summary := "s" }])))
      ≠ JsonVal.arr [] := by
  decide

/-- Claim C1 (amended): for every collection loader, a network error or a
non-JSON body leaves the section state equal to the empty-list case, and
no error is propagated; but the HTTP status is never examined — any
response whose body parses as JSON has that body stored as the state,
success status or not. -/
theorem C1_fail_soft_amended :
    ∀ ok : Bool,
      (projectsLoad .networkError = .arr []
        ∧ projectsLoad (.response ok none) = .arr []
        ∧ ∀ j, projectsLoad (.response ok (some j)) = j)
      ∧ (experienceLoad .networkError = .arr []
        ∧ experienceLoad (.response ok none) = .arr []
        ∧ ∀ j, experienceLoad (.response ok (some j)) = j)
      ∧ (educationLoad .networkError = .arr []
        ∧ educationLoad (.response ok none) = .arr []
        ∧ ∀ j, educationLoad (.response ok (some j)) = j)
      ∧ (postsLoad .networkError = .arr []
        ∧ postsLoad (.response ok none) = .arr []
        ∧ ∀ j, postsLoad (.response ok (some j)) = j) := by
  intro ok
  exact ⟨⟨rfl, rfl, fun j => rfl⟩, ⟨rfl, rfl, fun j => rfl⟩,
    ⟨rfl, rfl, fun j => rfl⟩, ⟨rfl, rfl, fun j => rfl⟩⟩

/-- Claim C2, code bug: starting with no persisted preference and OS =
light, the mount effect immediately persists `'light'`, so the handler's
`!localStorage.getItem('theme')` guard is false and a subsequent OS
notification of dark leaves the resolved theme `'light'` — the guard can
never fire after mount, contradicting its evident purpose. -/
theorem C2_os_notification_dead :
    themeMount none false = { theme := "light", stored := some "light" }
      ∧ osNotify true (themeMount none false) = themeMount none false := by
  constructor <;> rfl

/-- Claim C3, counterexample: mounting with no persisted preference and
OS = dark does NOT leave the persistent storage unchanged — the mount
effect writes the OS-derived value. -/
theorem C3_counterexample : (themeMount none true).stored ≠ none := by
  decide

/-- Claim C3 (amended): with no persisted preference, the `useState`
initializer itself resolves to the OS signal without writing, but the
mount effect immediately persists that resolved theme, so after mount the
storage holds the OS-derived value. -/
theorem C3_initial_persisted_amended :
    ∀ b : Bool,
      resolveInitial none b = osStr b
        ∧ (themeMount none b).theme = osStr b
        ∧ (themeMount none b).stored = some (osStr b) := by
  intro b
  cases b <;> exact ⟨rfl, rfl, rfl⟩

/-- Claim C4: the initially resolved theme equals the persisted
preference when one exists, and otherwise equals the OS signal. -/
theorem C4_initial_resolution (b : Bool) (s : String)
    (h : s = "light" ∨ s = "dark") :
    resolveInitial none b = osStr b ∧ resolveInitial (some s) b = s := by
  constructor
  · rfl
  · rcases h with h | h <;> subst h <;> rfl

/-- Claim C4 witness: no persisted preference with OS = dark resolves to
dark; persisted light with OS = dark resolves to light. -/
theorem C4_initial_resolution_witness :
    resolveInitial none true = "dark"
      ∧ resolveInitial (some "light") true = "light" := by
  have h := C4_initial_resolution true "light" (Or.inl rfl)
  exact ⟨h.1.trans rfl, h.2⟩

/-- Claim C5: after any explicit `setPreference` call with a theme value,
an OS notification leaves the state (and hence the resolved theme)
unchanged, because the stored preference makes the handler guard false. -/
theorem C5_explicit_preference_wins (st : ThemeState) (p : String) (b : Bool)
    (h : p = "light" ∨ p = "dark") :
    osNotify b (setPreference p st) = setPreference p st := by
  rcases h with h | h <;> subst h <;> rfl

/-- Claim C5 witness: after `setPreference dark`, an OS notification of
light does not change the state. -/
theorem C5_explicit_preference_wins_witness :
    osNotify false (setPreference "dark" { theme := "light", stored := none })
      = setPreference "dark" { theme := "light", stored := none } :=
  C5_explicit_preference_wins { theme := "light", stored := none } "dark" false
    (Or.inr rfl)

/-- Claim C6, counterexample: a scroll event with zero delta (same `y` as
the previous one) HIDES the nav bar, because the handler tests the strict
`y < lastY.current`; the claim requires it shown on a zero delta. -/
theorem C6_counterexample :
    navShown (onScroll 5 { scrollUp := true, lastY := 5 }) = false := by
  decide

/-- Claim C6 (amended): after a scroll event the nav bar's visibility is
determined solely by the most recent scroll delta — independent of the
previous visibility — and it is shown exactly when the delta is strictly
upward; a downward or zero delta hides it. -/
theorem C6_scroll_visibility_amended :
    ∀ (y : Nat) (st : NavState),
      (navShown (onScroll y st) = true ↔ y < st.lastY)
        ∧ ∀ b b' : Bool,
            onScroll y { scrollUp := b, lastY := st.lastY }
              = onScroll y { scrollUp := b', lastY := st.lastY } := by
  intro y st
  constructor
  · simp [navShown, onScroll]
  · intro b b'
    rfl

/-- Claim C7, counterexample: a record whose `demo_url` is set to the
empty string has the field set, yet `p.demo_url &&` is falsy, so no
live-link control is rendered — the claimed "iff set" fails. -/
theorem C7_counterexample :
    (Project.demo_url
        { slug := "b", title := "T", summary := "s", demo_url := some "" }).isSome
        = true
      ∧ (renderProject
          { slug := "b", title := "T", summary := "s", demo_url := some "" }).live
        = none := by
  constructor <;> rfl

/-- Claim C7 (amended): the rendered item has a live-link control iff
`demo_url` is set to a non-empty string, and a repo-link control iff
`repo_url` is set to a non-empty string; the spec scenario record renders
with title "Portfolio", a live link and no repo link. -/
theorem C7_project_links_amended :
    ∀ p : Project,
      ((renderProject p).live.isSome ↔ ∃ s, p.demo_url = some s ∧ s ≠ "")
        ∧ ((renderProject p).repo.isSome ↔ ∃ s, p.repo_url = some s ∧ s ≠ "")
        ∧ renderProject
              { slug := "a", title := "Portfolio", summary := "x",
                demo_url := some "https://e.com" }
            = { title := "Portfolio", summary := "x",
                live := some "https://e.com", repo := none } := by
  intro p
  refine ⟨?_, ?_, rfl⟩
  · cases hd : p.demo_url with
    | none => simp [renderProject, truthyStr, hd]
    | some s =>
        by_cases hs : s = "" <;>
          simp [renderProject, truthyStr, hd, hs]
  · cases hr : p.repo_url with
    | none => simp [renderProject, truthyStr, hr]
    | some s =>
        by_cases hs : s = "" <;>
          simp [renderProject, truthyStr, hr, hs]

/-- Claim C8: each loader issues exactly one request, to the
concatenation `<base>/api/<endpointName>`; an absent or empty configured
base gives the same-origin path `/api/<endpointName>`. -/
theorem C8_request_urls :
    ∀ (env : Option String) (name : String),
      (requestsFor env name).length = 1
        ∧ requestsFor env name = [baseOf env ++ "/api/" ++ name]
        ∧ requestsFor none name = ["/api/" ++ name]
        ∧ requestsFor (some "") name = ["/api/" ++ name] := by
  intro env name
  exact ⟨rfl, rfl, rfl, rfl⟩

/-- Claim C9: the theme toggle maps dark to light and light to dark, so
it is an involution on the two theme values. -/
theorem C9_toggle_involution (t : String) (h : t = "light" ∨ t = "dark") :
    toggleTheme "dark" = "light" ∧ toggleTheme "light" = "dark"
      ∧ toggleTheme (toggleTheme t) = t := by
  rcases h with h | h <;> subst h <;> exact ⟨rfl, rfl, rfl⟩

/-- Claim C9 witness: toggling twice from dark restores dark. -/
theorem C9_toggle_involution_witness :
    toggleTheme (toggleTheme "dark") = "dark" :=
  (C9_toggle_involution "dark" (Or.inr rfl)).2.2

/-- Claim C10: rendering a post whose `tags` field is absent is total and
yields an empty chip list while the other fields pass through as given. -/
theorem C10_missing_tags_render_empty :
    ∀ (i t e : String) (r : Nat),
      renderPost
          { id := i, title := t, excerpt := e, read_time := r,
            tags := none }
        = { title := t, read_time := r, excerpt := e, chips := [] } := by
  intro i t e r
  rfl
